import Mathlib

/-!
Verification development for the cricket-tracker video annotation overlay.

The overlay component (source: src/unnamed/part_009, `VideoAnnotationLayer`) keeps an
in-progress drawing and reacts to pan-responder events; the Analysis screen
(source: src/unnamed/part_001, `Analysis`) owns the finalized annotation list, the
mode flags, the text-entry prompt and the video player.  A historical variant of the
overlay with drag-to-move support is embedded further below
(source: src/.history/components/VideoAnnotationLayer_20250509113500.tsx).

Coordinates and times are modelled as rationals.  The source compares
`Math.sqrt(dSq) < r`; both sides are nonnegative, so this is equivalent to
`dSq < r * r`, which keeps the embedding inside `ℚ` and executable.
`Date.now()` is modelled as a `ℕ` parameter `now` (milliseconds), and
`Date.now().toString()` as `Nat.repr now`.
-/

/-- A 2-D point in the overlay's local pixel coordinates. -/
structure Point2D where
  x : ℚ
  y : ℚ
deriving DecidableEq

/-- The `type` field of an annotation record: `'line' | 'circle' | 'text'`.
The spec's kinds map as `Line ↦ line`, `Point ↦ circle`, `Text ↦ text`
(a `circle` is rendered as a small point marker). -/
inductive AnnType where
  | line
  | circle
  | text
deriving DecidableEq

/-- The annotation record of src/unnamed/part_009 and src/unnamed/part_001:
`{ id; type; points; timestamp; text? }`. -/
structure Annotation where
  id : String
  type : AnnType
  points : List Point2D
  timestamp : ℚ
  text : Option String
deriving DecidableEq

/-- The in-progress drawing (`currentDrawing`): `{ type: 'line' | 'circle'; points }`. -/
structure Drawing where
  type : AnnType
  points : List Point2D
deriving DecidableEq

/-- Local state of the live overlay component (src/unnamed/part_009): just
`currentDrawing`. -/
structure LayerState where
  currentDrawing : Option Drawing
deriving DecidableEq

/-- The props the overlay receives from the Analysis screen (src/unnamed/part_009). -/
structure Props where
  currentTime : ℚ
  annotations : List Annotation
  isDrawingMode : Bool
  isTextMode : Bool
  isEraserMode : Bool
deriving DecidableEq

/-- Callbacks the overlay fires into its host: `onAddAnnotation`,
`onRemoveAnnotation`, `onAddTextAnnotation`. -/
inductive LayerEvent where
  | emitAdd ( a : Annotation)
  | emitRemove (id : String)
  | emitAddText (pos : Point2D)
deriving DecidableEq

/-- Squared Euclidean distance between two points. -/
def distSq (p q : Point2D) : ℚ :=
  (p.x - q.x) * (p.x - q.x) + (p.y - q.y) * (p.y - q.y)

/-- The eraser hit test of src/unnamed/part_009, lines 65-89: for `'text'` the
distance is measured from `(point.x, point.y - 20)` with radius 30; for `'line'`
any vertex within radius 10 hits; for `'circle'` the single point within radius 10.
An annotation with an empty `points` array never hits (in the source the
destructured point is `undefined` and the `NaN` comparison is false). -/
def eraserHit (loc : Point2D) ( a : Annotation) : Bool :=
  match a.type with
  | AnnType.text =>
      match a.points with
      | point :: _ => decide (distSq { x := point.x, y := point.y - 20 } loc < 30 * 30)
      | [] => false
  | AnnType.line =>
      a.points.any (fun point => decide (distSq point loc < 10 * 10))
  | AnnType.circle =>
      match a.points with
      | center :: _ => decide (distSq center loc < 10 * 10)
      | [] => false

/-- `onPanResponderGrant` of src/unnamed/part_009, lines 53-101. -/
def onPanResponderGrant (props : Props) (st : LayerState) (loc : Point2D) :
    LayerState × List LayerEvent :=
  if !props.isDrawingMode && !props.isTextMode && !props.isEraserMode then (st, [])
  else if props.isTextMode then (st, [LayerEvent.emitAddText loc])
  else if props.isEraserMode then
    match props.annotations.find? (eraserHit loc) with
    | some a => (st, [LayerEvent.emitRemove a.id])
    | none => (st, [])
  else
    ({ currentDrawing := some { type := AnnType.line, points := [loc] } }, [])

/-- `onPanResponderMove` of src/unnamed/part_009, lines 102-113. -/
def onPanResponderMove (props : Props) (st : LayerState) (loc : Point2D) : LayerState :=
  if !props.isDrawingMode then st
  else
    match st.currentDrawing with
    | none => st
    | some d => { currentDrawing := some { d with points := d.points ++ [loc] } }

/-- `onPanResponderRelease` of src/unnamed/part_009, lines 114-125.  `Date.now()`
is the parameter `now`. -/
def onPanResponderRelease (props : Props) (st : LayerState) (now : ℕ) :
    LayerState × List LayerEvent :=
  if !props.isDrawingMode then (st, [])
  else
    match st.currentDrawing with
    | none => (st, [])
    | some d =>
        ({ currentDrawing := none },
          [LayerEvent.emitAdd
            { id := Nat.repr now, type := d.type, points := d.points,
              timestamp := props.currentTime, text := none }])

/-- The render-time visibility filter of src/unnamed/part_009, line 189:
`annotations.filter(a => Math.abs(a.timestamp - currentTime) < 0.1)`. -/
def visibleAnnotations ( anns : List Annotation) (currentTime : ℚ) : List Annotation :=
  anns.filter (fun a => decide (|a.timestamp - currentTime| < 1 / 10))

/-- A complete pan gesture against the live overlay: grant at `p0`, one move per
element of `ps`, then release; returns the final local state and all emitted
callback events in order. -/
def drawGestureL (props : Props) (st : LayerState) (p0 : Point2D) (ps : List Point2D)
    (now : ℕ) : LayerState × List LayerEvent :=
  let r1 := onPanResponderGrant props st p0
  let st2 := ps.foldl (onPanResponderMove props) r1.1
  let r2 := onPanResponderRelease props st2 now
  (r2.1, r1.2 ++ r2.2)

/-- The playback status returned by `getStatusAsync` / reported to
`onPlaybackStatusUpdate` (expo-av `AVPlaybackStatus`), reduced to the fields the
Analysis screen reads: `isLoaded` and `positionMillis`. -/
inductive PlayerStatus where
  | notLoaded
  | loaded (positionMillis : ℚ)
deriving DecidableEq

/-- The expression `status?.isLoaded ? status.positionMillis / 1000 : 0` used by
`handleAddAnnotation` and `handleTextSubmit` in src/unnamed/part_001. -/
def statusTime : PlayerStatus → ℚ
  | PlayerStatus.notLoaded => 0
  | PlayerStatus.loaded positionMillis => positionMillis / 1000

/-- The Analysis screen state (src/unnamed/part_001), restricted to the fields the
annotation flow reads and writes. -/
structure AnalysisState where
  primaryVideoUri : Option String
  annotations : List Annotation
  isDrawingMode : Bool
  isTextMode : Bool
  isEraserMode : Bool
  showTextInput : Bool
  textPosition : Option Point2D
  textAnnotation : String
  currentTime : ℚ
deriving DecidableEq

/-- `handleAddAnnotation` of src/unnamed/part_001, lines 227-239: appends the
incoming record after overwriting its `timestamp` with the player-status time. -/
def handleAddAnnotation (s : AnalysisState) (status : PlayerStatus) ( a : Annotation) :
    AnalysisState :=
  { s with annotations := s.annotations ++ [{ a with timestamp := statusTime status }] }

/-- `handleAddTextAnnotation` of src/unnamed/part_001, lines 241-244. -/
def handleAddTextAnnotation (s : AnalysisState) (position : Point2D) : AnalysisState :=
  { s with textPosition := some position, showTextInput := true }

/-- `handleRemoveAnnotation` of src/unnamed/part_001, lines 285-289. -/
def handleRemoveAnnotation (s : AnalysisState) (annotationId : String) : AnalysisState :=
  { s with annotations := s.annotations.filter (fun a => a.id != annotationId) }

/-- `handleTextSubmit` of src/unnamed/part_001, lines 246-266.  The guard is
`if (textPosition && textAnnotation.trim())`; an empty trimmed string is falsy.
`Date.now()` is the parameter `now`. -/
def handleTextSubmit (s : AnalysisState) (status : PlayerStatus) (now : ℕ) : AnalysisState :=
  match s.textPosition with
  | none => s
  | some pos =>
      if s.textAnnotation.trim = "" then s
      else
        { s with
          annotations := s.annotations ++
            [{ id := Nat.repr now, type := AnnType.text, points := [pos],
               timestamp := statusTime status, text := some s.textAnnotation.trim }],
          textAnnotation := "",
          textPosition := none,
          showTextInput := false }

/-- The state reset performed by `selectVideo` in src/unnamed/part_001, lines
198-225, on the primary, non-cancelled path ("Reset annotations and related
states when new video is selected"). -/
def selectVideoReset (s : AnalysisState) (uri : String) : AnalysisState :=
  { s with primaryVideoUri := some uri, annotations := [], currentTime := 0,
           isDrawingMode := false, isTextMode := false, isEraserMode := false,
           showTextInput := false, textPosition := none, textAnnotation := "" }

/-- The three toolbar mode buttons of src/unnamed/part_001, lines 572-605. -/
inductive ModeCommand where
  | pressDraw
  | pressText
  | pressEraser
deriving DecidableEq

/-- The `onPress` handlers of the three mode buttons: toggle the pressed flag and
turn the other two off. -/
def applyModeCommand : ModeCommand → AnalysisState → AnalysisState
  | ModeCommand.pressDraw, s =>
      { s with isDrawingMode := !s.isDrawingMode, isTextMode := false, isEraserMode := false }
  | ModeCommand.pressText, s =>
      { s with isTextMode := !s.isTextMode, isDrawingMode := false, isEraserMode := false }
  | ModeCommand.pressEraser, s =>
      { s with isEraserMode := !s.isEraserMode, isDrawingMode := false, isTextMode := false }

/-- Combined state of the Analysis screen and the live overlay component it
renders (src/unnamed/part_001 + src/unnamed/part_009). -/
structure SystemState where
  analysis : AnalysisState
  layer : LayerState
deriving DecidableEq

/-- The props src/unnamed/part_001 passes to the overlay (lines 472-483). -/
def mkProps (s : AnalysisState) : Props :=
  { currentTime := s.currentTime, annotations := s.annotations,
    isDrawingMode := s.isDrawingMode, isTextMode := s.isTextMode,
    isEraserMode := s.isEraserMode }

/-- Dispatch of one overlay callback to the Analysis screen handlers. -/
def applyLayerEvent (status : PlayerStatus) (s : AnalysisState) : LayerEvent → AnalysisState
  | LayerEvent.emitAdd a => handleAddAnnotation s status a
  | LayerEvent.emitRemove i => handleRemoveAnnotation s i
  | LayerEvent.emitAddText p => handleAddTextAnnotation s p

/-- A mode button press leaves the overlay's local state untouched (the Analysis
screen has no handle on `currentDrawing`). -/
def applyModeCommandSys (c : ModeCommand) (sys : SystemState) : SystemState :=
  { sys with analysis := applyModeCommand c sys.analysis }

/-- Selecting a replacement primary video: `selectVideo` resets only Analysis
screen state; the overlay component stays mounted and keeps its local state. -/
def selectVideoResetSys (sys : SystemState) (uri : String) : SystemState :=
  { sys with analysis := selectVideoReset sys.analysis uri }

/-- A full tap gesture at system level: grant then release with no moves, with
the emitted callbacks folded into the Analysis screen state. -/
def tapGesture (sys : SystemState) (loc : Point2D) (status : PlayerStatus) (now : ℕ) :
    SystemState :=
  let props := mkProps sys.analysis
  let r1 := onPanResponderGrant props sys.layer loc
  let a1 := r1.2.foldl (applyLayerEvent status) sys.analysis
  let r2 := onPanResponderRelease props r1.1 now
  let a2 := r2.2.foldl (applyLayerEvent status) a1
  { analysis := a2, layer := r2.1 }

/-- Local state of the historical overlay variant
(src/.history/components/VideoAnnotationLayer_20250509113500.tsx): adds the
drag-to-move and zoom state to the drawing state. -/
structure LayerStateH where
  currentDrawing : Option Drawing
  draggedAnnotation : Option String
  dragOffset : Point2D
  zoomStart : Option ℚ
deriving DecidableEq

/-- Props of the historical overlay variant (only the fields its move handler
reads are kept). -/
structure PropsH where
  currentTime : ℚ
  annotations : List Annotation
  isDrawingMode : Bool
  isTextMode : Bool
  isEraserMode : Bool
  isZoomMode : Bool
deriving DecidableEq

/-- Callbacks fired by the historical variant's move handler: `onAddAnnotation`
and `onScaleChange`. -/
inductive LayerEventH where
  | emitAddH ( a : Annotation)
  | emitScaleH (scale : ℚ)
deriving DecidableEq

/-- `onPanResponderMove` of the historical variant, lines 138-170.  In the drag
branch the source maps the annotation list, replacing the dragged record's points
by `[(locationX - dragOffset.x, locationY - dragOffset.y)]`, then ships the single
modified record to the parent via `onAddAnnotation`. -/
def onPanResponderMoveH (props : PropsH) (st : LayerStateH) (loc : Point2D) (dx : ℚ) :
    LayerStateH × List LayerEventH :=
  if props.isZoomMode && st.zoomStart.isSome then
    match st.zoomStart with
    | some zs => (st, [LayerEventH.emitScaleH (min (max (zs * (1 + dx / 200)) (1 / 2)) 3)])
    | none => (st, [])
  else if props.isDrawingMode && st.currentDrawing.isSome then
    match st.currentDrawing with
    | some d => ({ st with currentDrawing := some { d with points := d.points ++ [loc] } }, [])
    | none => (st, [])
  else
    match st.draggedAnnotation with
    | some dragId =>
        match (props.annotations.map (fun a =>
            if a.id == dragId then
              { a with points := [{ x := loc.x - st.dragOffset.x,
                                    y := loc.y - st.dragOffset.y }] }
            else a)).find? (fun a => a.id == dragId) with
        | some moved => (st, [LayerEventH.emitAddH moved])
        | none => (st, [])
    | none => (st, [])

/-- Combined state of the Analysis screen with the historical overlay variant. -/
structure SystemStateH where
  analysis : AnalysisState
  layerH : LayerStateH
deriving DecidableEq

/-- Dispatch of the historical variant's callbacks to the Analysis screen
handlers (`onScaleChange` does not touch the modelled state). -/
def applyLayerEventH (status : PlayerStatus) (s : AnalysisState) : LayerEventH → AnalysisState
  | LayerEventH.emitAddH a => handleAddAnnotation s status a
  | LayerEventH.emitScaleH _ => s

/-- One `continueGesture` step of the composed system while the historical overlay
variant is mounted: run the move handler with props derived from the Analysis
state, then fold its callbacks into the Analysis state. -/
def dragMoveStep (sys : SystemStateH) (zoomMode : Bool) (loc : Point2D) (dx : ℚ)
    (status : PlayerStatus) : SystemStateH :=
  let props : PropsH :=
    { currentTime := sys.analysis.currentTime, annotations := sys.analysis.annotations,
      isDrawingMode := sys.analysis.isDrawingMode, isTextMode := sys.analysis.isTextMode,
      isEraserMode := sys.analysis.isEraserMode, isZoomMode := zoomMode }
  let r := onPanResponderMoveH props sys.layerH loc dx
  { analysis := r.2.foldl (applyLayerEventH status) sys.analysis, layerH := r.1 }

/-- Helper: `find?` returns the first element of the list satisfying the
predicate. -/
theorem find?_append_first {α : Type} (p : α → Bool) (a : α) (post : List α)
    (ha : p a = true) :
    ∀ pre : List α, (∀ b ∈ pre, p b = false) → (pre ++ a :: post).find? p = some a
  | [], _ => by simpa using List.find?_cons_of_pos post ha
  | b :: bs, hpre => by
      rw [List.cons_append,
        List.find?_cons_of_neg _ (by simp [hpre b (List.mem_cons_self b bs)])]
      exact find?_append_first p a post ha bs (fun x hx => hpre x (List.mem_cons_of_mem b hx))

/-- Helper: while in drawing mode with a live draft, a sequence of move events
appends every reported position, in order, to the draft. -/
theorem foldl_move_append (props : Props) (hD : props.isDrawingMode = true) :
    ∀ (ps : List Point2D) (d : Drawing),
      ps.foldl (onPanResponderMove props) { currentDrawing := some d } =
        { currentDrawing := some { d with points := d.points ++ ps } }
  | [], d => by simp
  | p :: ps, d => by
      rw [List.foldl_cons]
      have hstep : onPanResponderMove props { currentDrawing := some d } p =
          { currentDrawing := some { d with points := d.points ++ [p] } } := by
        simp [onPanResponderMove, hD]
      rw [hstep, foldl_move_append props hD ps]
      simp

/-- C1: for every annotation `a` and playback time `t`, `visibleAnnotations`
contains `a` iff `a` is held by the overlay and `|a.timestamp - t| < 0.1`; the
window is symmetric in the absolute value and the inequality is strict, so a
timestamp differing from `t` by exactly `0.1` is excluded. -/
theorem visible_iff_within_tolerance ( anns : List Annotation) (t : ℚ) ( a : Annotation) :
    a ∈ visibleAnnotations anns t ↔ a ∈ anns ∧ |a.timestamp - t| < 1 / 10 := by
  simp [visibleAnnotations, List.mem_filter]

/-- C2 counterexample: in Draw mode, a tap (grant at `(3,4)`, zero moves, release)
emits an annotation whose `type` is `line` (with a single point), not `circle`
(the code's Point marker); the claimed kind `Point` is therefore wrong. -/
theorem tap_makes_line_counterexample :
    drawGestureL
      { currentTime := 5, annotations := [], isDrawingMode := true,
        isTextMode := false, isEraserMode := false }
      { currentDrawing := none } { x := 3, y := 4 } [] 0 =
      ({ currentDrawing := none },
        [LayerEvent.emitAdd
          { id := "0", type := AnnType.line, points := [{ x := 3, y := 4 }],
            timestamp := 5, text := none }]) ∧
    AnnType.line ≠ AnnType.circle := by
  decide

/-- C2 (amended): in Draw mode, a tap gesture (grant then release, zero moves) is
not dropped: exactly one annotation is emitted, holding exactly the tap position,
but its kind is `line` (a one-point polyline), never the `circle` Point marker. -/
theorem tap_emits_one_point_line (props : Props) (st : LayerState) (p : Point2D) (now : ℕ)
    (hD : props.isDrawingMode = true) (hT : props.isTextMode = false)
    (hE : props.isEraserMode = false) :
    drawGestureL props st p [] now =
      ({ currentDrawing := none },
        [LayerEvent.emitAdd
          { id := Nat.repr now, type := AnnType.line, points := [p],
            timestamp := props.currentTime, text := none }]) := by
  simp [drawGestureL, onPanResponderGrant, onPanResponderRelease, hD, hT, hE]

/-- C2 witness: the amended tap theorem applied at a concrete input. -/
theorem tap_emits_one_point_line_witness :
    drawGestureL
      { currentTime := 2, annotations := [], isDrawingMode := true,
        isTextMode := false, isEraserMode := false }
      { currentDrawing := none } { x := 1, y := 1 } [] 7 =
      ({ currentDrawing := none },
        [LayerEvent.emitAdd
          { id := Nat.repr 7, type := AnnType.line, points := [{ x := 1, y := 1 }],
            timestamp := 2, text := none }]) :=
  tap_emits_one_point_line _ _ _ _ rfl rfl rfl

/-- C6: in Draw mode, a drag gesture with `n ≥ 1` move events produces exactly one
`line` annotation whose points are the grant position followed by every reported
move position in arrival order — length `1 + n`, no simplification. -/
theorem drag_makes_full_polyline (props : Props) (st : LayerState) (p0 : Point2D)
    (ps : List Point2D) (now : ℕ) (hD : props.isDrawingMode = true)
    (hT : props.isTextMode = false) (hE : props.isEraserMode = false) (hn : ps ≠ []) :
    drawGestureL props st p0 ps now =
      ({ currentDrawing := none },
        [LayerEvent.emitAdd
          { id := Nat.repr now, type := AnnType.line, points := p0 :: ps,
            timestamp := props.currentTime, text := none }]) ∧
    (p0 :: ps).length = 1 + ps.length := by
  refine ⟨?_, by simp [Nat.add_comm]⟩
  have hgrant : onPanResponderGrant props st p0 =
      ({ currentDrawing := some { type := AnnType.line, points := [p0] } }, []) := by
    simp [onPanResponderGrant, hD, hT, hE]
  simp only [drawGestureL, hgrant]
  rw [foldl_move_append props hD ps { type := AnnType.line, points := [p0] }]
  simp [onPanResponderRelease, hD]

/-- C6 witness: the drag theorem applied at a concrete two-move gesture. -/
theorem drag_makes_full_polyline_witness :
    drawGestureL
      { currentTime := 5, annotations := [], isDrawingMode := true,
        isTextMode := false, isEraserMode := false }
      { currentDrawing := none } { x := 10, y := 10 }
      [{ x := 20, y := 10 }, { x := 30, y := 10 }] 42 =
      ({ currentDrawing := none },
        [LayerEvent.emitAdd
          { id := Nat.repr 42, type := AnnType.line,
            points := [{ x := 10, y := 10 }, { x := 20, y := 10 }, { x := 30, y := 10 }],
            timestamp := 5, text := none }]) ∧
    ([{ x := 10, y := 10 }, { x := 20, y := 10 }, { x := 30, y := 10 }] :
      List Point2D).length = 1 + 2 :=
  drag_makes_full_polyline _ _ _ _ _ rfl rfl rfl (by simp)

/-- C3 counterexample: in Erase mode, the grant handler hit-tests every
annotation, not only the ones visible at the current playback time: an annotation
whose timestamp differs from `currentTime` by 100 seconds (far outside the 0.1 s
window) is still found and a removal request for it is emitted. -/
theorem eraser_ignores_visibility_counterexample :
    onPanResponderGrant
      { currentTime := 0,
        annotations := [{ id := "1", type := AnnType.circle,
                          points := [{ x := 0, y := 0 }], timestamp := 100,
                          text := none }],
        isDrawingMode := false, isTextMode := false, isEraserMode := true }
      { currentDrawing := none } { x := 0, y := 0 } =
      ({ currentDrawing := none }, [LayerEvent.emitRemove "1"]) ∧
    ¬ |(100 : ℚ) - 0| < 1 / 10 := by
  with_unfolding_all decide

/-- C3 (amended): in Erase mode the grant handler hit-tests against all
annotations regardless of playback time, using squared-Euclidean comparisons with
radius 30 for `text` (measured from the point 20 px above the anchor), radius 10
for `circle` and for each `line` vertex (`eraserHit`); among qualifying
annotations the first in insertion order wins, and exactly one removal request,
for that annotation's id, is emitted. -/
theorem eraser_removes_first_hit (props : Props) (st : LayerState) (loc : Point2D)
    (pre post : List Annotation) ( a : Annotation)
    (hE : props.isEraserMode = true) (hT : props.isTextMode = false)
    (hanns : props.annotations = pre ++ a :: post)
    (hhit : eraserHit loc a = true)
    (hpre : ∀ b ∈ pre, eraserHit loc b = false) :
    onPanResponderGrant props st loc = (st, [LayerEvent.emitRemove a.id]) := by
  have hfind : props.annotations.find? (eraserHit loc) = some a := by
    rw [hanns]
    exact find?_append_first (eraserHit loc) a post hhit pre hpre
  simp [onPanResponderGrant, hE, hT, hfind]

/-- C3 witness: the amended eraser theorem at a concrete input: one non-hit
annotation precedes two hits at the touch point; the first hit (id "2") is the one
removed, even though a later annotation (id "3") also qualifies. -/
theorem eraser_removes_first_hit_witness :
    onPanResponderGrant
      { currentTime := 0,
        annotations :=
          [{ id := "1", type := AnnType.text, points := [{ x := 500, y := 500 }],
             timestamp := 0, text := some "far" },
           { id := "2", type := AnnType.circle, points := [{ x := 1, y := 1 }],
             timestamp := 50, text := none },
           { id := "3", type := AnnType.line,
             points := [{ x := 1, y := 1 }, { x := 9, y := 9 }], timestamp := 0,
             text := none }],
        isDrawingMode := false, isTextMode := false, isEraserMode := true }
      { currentDrawing := none } { x := 1, y := 1 } =
      ({ currentDrawing := none }, [LayerEvent.emitRemove "2"]) :=
  eraser_removes_first_hit _ _ _
    [{ id := "1", type := AnnType.text, points := [{ x := 500, y := 500 }],
       timestamp := 0, text := some "far" }]
    [{ id := "3", type := AnnType.line,
       points := [{ x := 1, y := 1 }, { x := 9, y := 9 }], timestamp := 0, text := none }]
    { id := "2", type := AnnType.circle, points := [{ x := 1, y := 1 }],
      timestamp := 50, text := none }
    rfl rfl rfl (by with_unfolding_all decide) (by with_unfolding_all decide)

/-- C4: evaluation of the drag bug at a concrete input.  One `text` annotation
(id "1", anchor (50,50), timestamp 2) is being dragged with grab offset (5,5);
the pointer moves to (60,60) while the player reports position 7000 ms.  The move
handler does recompute the anchor as position minus offset, (55,55), but ships the
record through `onAddAnnotation`; the parent's `handleAddAnnotation` appends it as
a second record with the same id and overwrites its timestamp with the current
player position (7 s).  The annotations list grows from 1 to 2 entries and the new
record's timestamp differs from the original 2 s, contradicting the in-place
update and timestamp immutability stated by the spec — and the component's own
comment says it is updating the existing record's position. -/
theorem drag_move_appends_and_restamps :
    (dragMoveStep
      { analysis :=
          { primaryVideoUri := some "v",
            annotations := [{ id := "1", type := AnnType.text,
                              points := [{ x := 50, y := 50 }], timestamp := 2,
                              text := some "hi" }],
            isDrawingMode := false, isTextMode := false, isEraserMode := false,
            showTextInput := false, textPosition := none, textAnnotation := "",
            currentTime := 2 },
        layerH :=
          { currentDrawing := none, draggedAnnotation := some "1",
            dragOffset := { x := 5, y := 5 }, zoomStart := none } }
      false { x := 60, y := 60 } 0 (PlayerStatus.loaded 7000)).analysis.annotations =
      [{ id := "1", type := AnnType.text, points := [{ x := 50, y := 50 }],
         timestamp := 2, text := some "hi" },
       { id := "1", type := AnnType.text, points := [{ x := 55, y := 55 }],
         timestamp := 7, text := some "hi" }] := by
  with_unfolding_all decide

/-- C5 counterexample: a state in Draw mode with a pending one-point draft;
pressing the eraser button switches to Erase (a non-Idle state) yet the resulting
state still holds the same draft — the mode switch does not discard it. -/
theorem mode_switch_keeps_draft_counterexample :
    (applyModeCommandSys ModeCommand.pressEraser
      { analysis :=
          { primaryVideoUri := some "v", annotations := [], isDrawingMode := true,
            isTextMode := false, isEraserMode := false, showTextInput := false,
            textPosition := none, textAnnotation := "", currentTime := 0 },
        layer :=
          { currentDrawing :=
              some { type := AnnType.line, points := [{ x := 1, y := 2 }] } } }) =
      { analysis :=
          { primaryVideoUri := some "v", annotations := [], isDrawingMode := false,
            isTextMode := false, isEraserMode := true, showTextInput := false,
            textPosition := none, textAnnotation := "", currentTime := 0 },
        layer :=
          { currentDrawing :=
              some { type := AnnType.line, points := [{ x := 1, y := 2 }] } } } ∧
    some { type := AnnType.line, points := [{ x := 1, y := 2 }] } ≠
      (none : Option Drawing) := by
  with_unfolding_all decide

/-- C5 (amended): a mode button press only toggles the mode flags; it neither
discards the overlay's pending draft (the overlay state is untouched) nor creates
an annotation from it (the annotations list is untouched). -/
theorem mode_switch_preserves_draft (c : ModeCommand) (sys : SystemState) :
    (applyModeCommandSys c sys).layer = sys.layer ∧
    (applyModeCommandSys c sys).analysis.annotations = sys.analysis.annotations := by
  cases c <;> simp [applyModeCommandSys, applyModeCommand]

/-- C7 counterexample: replacing the primary video resets the Analysis screen
state but cannot reach the overlay's local `currentDrawing`: starting from a
state with a pending draft, after `selectVideo` the draft is still present, not
`none` as the claim requires. -/
theorem reset_keeps_draft_counterexample :
    (selectVideoResetSys
      { analysis :=
          { primaryVideoUri := some "old",
            annotations := [{ id := "9", type := AnnType.circle,
                              points := [{ x := 4, y := 4 }], timestamp := 3,
                              text := none }],
            isDrawingMode := true, isTextMode := false, isEraserMode := false,
            showTextInput := true, textPosition := some { x := 8, y := 8 },
            textAnnotation := "pending", currentTime := 9 },
        layer :=
          { currentDrawing :=
              some { type := AnnType.line, points := [{ x := 7, y := 7 }] } } }
      "new").layer.currentDrawing =
      some { type := AnnType.line, points := [{ x := 7, y := 7 }] } ∧
    some { type := AnnType.line, points := [{ x := 7, y := 7 }] } ≠
      (none : Option Drawing) := by
  with_unfolding_all decide

/-- C7 (amended): for every prior state, replacing the primary video clears the
annotations, playback time, all three mode flags (Idle) and the text prompt, but
leaves the overlay's local draft state exactly as it was. -/
theorem reset_clears_screen_keeps_draft (sys : SystemState) (uri : String) :
    (selectVideoResetSys sys uri).analysis.annotations = [] ∧
    (selectVideoResetSys sys uri).analysis.isDrawingMode = false ∧
    (selectVideoResetSys sys uri).analysis.isTextMode = false ∧
    (selectVideoResetSys sys uri).analysis.isEraserMode = false ∧
    (selectVideoResetSys sys uri).analysis.showTextInput = false ∧
    (selectVideoResetSys sys uri).analysis.textPosition = none ∧
    (selectVideoResetSys sys uri).analysis.currentTime = 0 ∧
    (selectVideoResetSys sys uri).layer = sys.layer := by
  simp [selectVideoResetSys, selectVideoReset]

/-- C8: a text-placement submission whose text trims to the empty string creates
no annotation and raises nothing (the handler is a total function returning the
state unchanged); with the prompt anchored at `pos`, non-blank text and a loaded
player at `ms` milliseconds, exactly one `text` annotation is appended, anchored
at `pos`, stamped with the current playback time `ms / 1000` and labelled with
the trimmed text. -/
theorem text_submit_validation (s : AnalysisState) (status : PlayerStatus) (now : ℕ) :
    ( s.textAnnotation.trim = "" → handleTextSubmit s status now = s) ∧
    (∀ pos ms, s.textPosition = some pos → ¬ s.textAnnotation.trim = "" →
      status = PlayerStatus.loaded ms →
      (handleTextSubmit s status now).annotations =
        s.annotations ++
          [{ id := Nat.repr now, type := AnnType.text, points := [pos],
             timestamp := ms / 1000, text := some s.textAnnotation.trim }]) := by
  constructor
  · intro h
    cases hpos : s.textPosition with
    | none => simp [handleTextSubmit, hpos]
    | some pos => simp [handleTextSubmit, hpos, h]
  · intro pos ms hpos hne hst
    subst hst
    simp [handleTextSubmit, hpos, hne, statusTime]

/-- C8 witness: the validation theorem applied at concrete inputs: a
whitespace-only submission leaves the state unchanged, and a non-blank submission
at position (50,50) with the player at 2000 ms appends the trimmed label. -/
theorem text_submit_validation_witness :
    handleTextSubmit
      { primaryVideoUri := some "v", annotations := [], isDrawingMode := false,
        isTextMode := true, isEraserMode := false, showTextInput := true,
        textPosition := some { x := 50, y := 50 }, textAnnotation := "   ",
        currentTime := 2 } (PlayerStatus.loaded 2000) 5 =
      { primaryVideoUri := some "v", annotations := [], isDrawingMode := false,
        isTextMode := true, isEraserMode := false, showTextInput := true,
        textPosition := some { x := 50, y := 50 }, textAnnotation := "   ",
        currentTime := 2 } ∧
    (handleTextSubmit
      { primaryVideoUri := some "v", annotations := [], isDrawingMode := false,
        isTextMode := true, isEraserMode := false, showTextInput := true,
        textPosition := some { x := 50, y := 50 },
        textAnnotation := " check elbow ", currentTime := 2 }
      (PlayerStatus.loaded 2000) 5).annotations =
      [] ++
        [{ id := Nat.repr 5, type := AnnType.text, points := [{ x := 50, y := 50 }],
           timestamp := 2000 / 1000, text := some (" check elbow ".trim) }] :=
  ⟨(text_submit_validation _ (PlayerStatus.loaded 2000) 5).1
      (by with_unfolding_all decide),
    (text_submit_validation _ (PlayerStatus.loaded 2000) 5).2
      { x := 50, y := 50 } 2000 rfl (by with_unfolding_all decide) rfl⟩

/-- C9 counterexample: two tap gestures finalized in the same millisecond
(`Date.now() = 1000` for both) while the same video is loaded produce two
distinct annotations that share the id "1000". -/
theorem duplicate_ids_counterexample :
    (tapGesture
      (tapGesture
        { analysis :=
            { primaryVideoUri := some "v", annotations := [], isDrawingMode := true,
              isTextMode := false, isEraserMode := false, showTextInput := false,
              textPosition := none, textAnnotation := "", currentTime := 5 },
          layer := { currentDrawing := none } }
        { x := 1, y := 1 } (PlayerStatus.loaded 5000) 1000)
      { x := 2, y := 2 } (PlayerStatus.loaded 5000) 1000).analysis.annotations =
      [{ id := "1000", type := AnnType.line, points := [{ x := 1, y := 1 }],
         timestamp := 5, text := none },
       { id := "1000", type := AnnType.line, points := [{ x := 2, y := 2 }],
         timestamp := 5, text := none }] ∧
    ({ id := "1000", type := AnnType.line, points := [{ x := 1, y := 1 }],
       timestamp := 5, text := none } : Annotation) ≠
      { id := "1000", type := AnnType.line, points := [{ x := 2, y := 2 }],
        timestamp := 5, text := none } ∧
    ({ id := "1000", type := AnnType.line, points := [{ x := 1, y := 1 }],
       timestamp := 5, text := none } : Annotation).id =
      ({ id := "1000", type := AnnType.line, points := [{ x := 2, y := 2 }],
         timestamp := 5, text := none } : Annotation).id := by
  with_unfolding_all decide

/-- C9 (amended): every annotation id is `Date.now().toString()` — the decimal
string of the millisecond clock at the instant of finalization: a draw/tap
release emits exactly one annotation carrying id `Nat.repr now`, and a text
submission appends one annotation carrying id `Nat.repr now`.  Uniqueness is
therefore only as good as the clock: finalizations in distinct milliseconds get
distinct decimal strings, while two finalizations within the same millisecond
share an id (see the counterexample). -/
theorem ids_are_clock_strings (props : Props) (st : LayerState) (d : Drawing) (now : ℕ)
    (s : AnalysisState) (status : PlayerStatus) (pos : Point2D)
    (hD : props.isDrawingMode = true) (hdraft : st.currentDrawing = some d)
    (hpos : s.textPosition = some pos) (hne : ¬ s.textAnnotation.trim = "") :
    (onPanResponderRelease props st now).2 =
      [LayerEvent.emitAdd
        { id := Nat.repr now, type := d.type, points := d.points,
          timestamp := props.currentTime, text := none }] ∧
    (handleTextSubmit s status now).annotations =
      s.annotations ++
        [{ id := Nat.repr now, type := AnnType.text, points := [pos],
           timestamp := statusTime status, text := some s.textAnnotation.trim }] := by
  constructor
  · simp [onPanResponderRelease, hD, hdraft]
  · simp [handleTextSubmit, hpos, hne]

/-- C9 witness: the id theorem applied at a concrete release and a concrete text
submission, both with clock value 4321. -/
theorem ids_are_clock_strings_witness :
    (onPanResponderRelease
      { currentTime := 3, annotations := [], isDrawingMode := true,
        isTextMode := false, isEraserMode := false }
      { currentDrawing := some { type := AnnType.line, points := [{ x := 0, y := 0 }] } }
      4321).2 =
      [LayerEvent.emitAdd
        { id := Nat.repr 4321, type := AnnType.line, points := [{ x := 0, y := 0 }],
          timestamp := 3, text := none }] ∧
    (handleTextSubmit
      { primaryVideoUri := some "v", annotations := [], isDrawingMode := false,
        isTextMode := true, isEraserMode := false, showTextInput := true,
        textPosition := some { x := 6, y := 6 }, textAnnotation := "note",
        currentTime := 3 } (PlayerStatus.loaded 3000) 4321).annotations =
      [] ++
        [{ id := Nat.repr 4321, type := AnnType.text, points := [{ x := 6, y := 6 }],
           timestamp := statusTime (PlayerStatus.loaded 3000),
           text := some ("note".trim) }] :=
  ids_are_clock_strings _ _ { type := AnnType.line, points := [{ x := 0, y := 0 }] } 4321
    _ (PlayerStatus.loaded 3000) { x := 6, y := 6 } rfl rfl rfl
    (by with_unfolding_all decide)

/-- C10: when the player reports a not-loaded status at finalization, the
annotation is still created — `handleAddAnnotation` appends the gesture's record
and `handleTextSubmit` appends the text record — but with timestamp 0 instead of
the playback position. -/
theorem notloaded_timestamp_zero (s : AnalysisState) ( a : Annotation) (now : ℕ)
    (pos : Point2D) (hpos : s.textPosition = some pos)
    (hne : ¬ s.textAnnotation.trim = "") :
    handleAddAnnotation s PlayerStatus.notLoaded a =
      { s with annotations := s.annotations ++ [{ a with timestamp := 0 }] } ∧
    (handleTextSubmit s PlayerStatus.notLoaded now).annotations =
      s.annotations ++
        [{ id := Nat.repr now, type := AnnType.text, points := [pos],
           timestamp := 0, text := some s.textAnnotation.trim }] := by
  constructor
  · simp [ handleAddAnnotation, statusTime]
  · simp [handleTextSubmit, hpos, hne, statusTime]

/-- C10 witness: the not-loaded theorem applied to a concrete line annotation and
a concrete text submission. -/
theorem notloaded_timestamp_zero_witness :
    handleAddAnnotation
      { primaryVideoUri := some "v", annotations := [], isDrawingMode := true,
        isTextMode := false, isEraserMode := false, showTextInput := false,
        textPosition := some { x := 9, y := 9 }, textAnnotation := "mark",
        currentTime := 8 } PlayerStatus.notLoaded
      { id := "77", type := AnnType.line,
        points := [{ x := 0, y := 0 }, { x := 1, y := 1 }], timestamp := 8,
        text := none } =
      { primaryVideoUri := some "v",
        annotations :=
          [{ id := "77", type := AnnType.line,
             points := [{ x := 0, y := 0 }, { x := 1, y := 1 }], timestamp := 0,
             text := none }],
        isDrawingMode := true, isTextMode := false, isEraserMode := false,
        showTextInput := false, textPosition := some { x := 9, y := 9 },
        textAnnotation := "mark", currentTime := 8 } ∧
    (handleTextSubmit
      { primaryVideoUri := some "v", annotations := [], isDrawingMode := true,
        isTextMode := false, isEraserMode := false, showTextInput := false,
        textPosition := some { x := 9, y := 9 }, textAnnotation := "mark",
        currentTime := 8 } PlayerStatus.notLoaded 55).annotations =
      [] ++
        [{ id := Nat.repr 55, type := AnnType.text, points := [{ x := 9, y := 9 }],
           timestamp := 0, text := some ("mark".trim) }] :=
  notloaded_timestamp_zero _
    { id := "77", type := AnnType.line,
      points := [{ x := 0, y := 0 }, { x := 1, y := 1 }], timestamp := 8,
      text := none } 55 { x := 9, y := 9 } rfl (by with_unfolding_all decide)
